import Mathlib

/-!
Shallow embedding of the EduNexus assignment / lecture backend routes
(`routes/assignments.js`, `routes/lectures.js`, `routes/courses.js`).
Mongo documents become Lean structures, each Express route handler becomes a
pure function from an explicit database state to a result together with the
new state, the Cloudinary blob store becomes an oracle parameter giving the
outcome of each attempted upload, and the wall clock is passed explicitly
(the submit route reads the clock twice: once for the deadline guard and
once when computing the stored status, so it takes two instants).
-/

deriving instance DecidableEq for Except

namespace EduNexus

/-- The JS `String.prototype.trim` (and the express-validator `trim()`
sanitizer): drop leading and trailing whitespace. -/
def strTrim (s : String) : String :=
  ⟨((s.data.dropWhile Char.isWhitespace).reverse.dropWhile Char.isWhitespace).reverse⟩

/-- The JS `String.prototype.startsWith`. -/
def strStartsWith (s p : String) : Bool :=
  p.data.isPrefixOf s.data

/-- Object ids (Mongo ObjectId) are modelled as naturals. -/
abbrev Oid := Nat

/-- Timestamps are modelled as naturals; `new Date() > d` becomes `d < now`. -/
abbrev Time := Nat

/-- Roles attached to an authenticated request by the auth middleware. -/
inductive Role where
  | admin
  | instructor
  | student
  deriving DecidableEq, Repr

/-- An authenticated actor: `req.user` after the auth middleware. -/
structure Actor where
  id : Oid
  role : Role
  deriving DecidableEq, Repr

/-- Submission status values stored by the submit and grade routes. -/
inductive SubStatus where
  | submitted
  | late
  | graded
  deriving DecidableEq, Repr

/-- An attachment entry pushed for every successfully uploaded file. -/
structure Attachment where
  name : String
  url : String
  mimetype : String
  deriving DecidableEq, Repr

/-- A submission embedded in an assignment document.  `marks` and `feedback`
are absent until the grade route sets them, hence `Option`. -/
structure Submission where
  student : Oid
  content : String
  attachments : List Attachment
  status : SubStatus
  marks : Option Int
  feedback : Option String
  deriving DecidableEq, Repr

/-- An assignment document. -/
structure Assignment where
  id : Oid
  title : String
  description : String
  course : Oid
  instructor : Oid
  dueDate : Time
  maxMarks : Int
  createdAt : Time
  submissions : List Submission
  deriving DecidableEq, Repr

/-- A resource attached to a lecture. -/
structure Resource where
  name : String
  url : String
  rtype : String
  deriving DecidableEq, Repr

/-- A lecture document. -/
structure Lecture where
  id : Oid
  title : String
  description : String
  course : Oid
  videoUrl : String
  videoId : String
  duration : Nat
  order : Int
  isPreview : Bool
  notes : String
  resources : List Resource
  deriving DecidableEq, Repr

/-- A course document (only the fields the routes under study read). -/
structure Course where
  id : Oid
  instructor : Oid
  students : List Oid
  assignments : List Oid
  lectures : List Oid
  isPublished : Bool
  deriving DecidableEq, Repr

/-- An uploaded multipart file as multer presents it. -/
structure UFile where
  originalname : String
  mimetype : String
  deriving DecidableEq, Repr

/-- The result object Cloudinary passes to the upload callback on success. -/
structure UploadResult where
  secureUrl : String
  publicId : String
  duration : Nat
  deriving DecidableEq, Repr

/-- An HTTP error response: status code and message body. -/
structure ApiError where
  status : Nat
  message : String
  deriving DecidableEq, Repr

/-- The persistent state: the three Mongo collections, plus a counter of
attempted blob store uploads (used to express that a rejection happens
before any store write). -/
structure DB where
  courses : List Course
  assignments : List Assignment
  lectures : List Lecture
  blobWrites : Nat
  deriving DecidableEq, Repr

/-- `Course.findById`. -/
def findCourse (db : DB) (cid : Oid) : Option Course :=
  db.courses.find? (fun c => c.id == cid)

/-- `Assignment.findById`. -/
def findAssignment (db : DB) (aid : Oid) : Option Assignment :=
  db.assignments.find? (fun a => a.id == aid)

/-- `course.save()`: replace the stored course having the same id. -/
def saveCourse (db : DB) (c : Course) : DB :=
  { db with courses := db.courses.map (fun x => if x.id == c.id then c else x) }

/-- `assignment.save()`: replace the stored assignment having the same id. -/
def saveAssignment (db : DB) (a : Assignment) : DB :=
  { db with assignments := db.assignments.map (fun x => if x.id == a.id then a else x) }

/-- `Assignment.findByIdAndDelete`. -/
def removeAssignment (db : DB) (aid : Oid) : DB :=
  { db with assignments := db.assignments.filter (fun x => x.id != aid) }

/-- Modelled from the spec: the `authorize(role)` middleware is required from
`../middleware/auth`, which is not among the provided sources; per the spec
a role mismatch yields a `Forbidden` (403) error before the handler runs. -/
def accessDenied : ApiError := ⟨403, "Access denied"⟩

/-- The 404 response of the assignment routes. -/
def assignmentNotFound : ApiError := ⟨404, "Assignment not found"⟩

/-- The 404 response of the course lookup. -/
def courseNotFound : ApiError := ⟨404, "Course not found"⟩

/-- The duplicate-submission response (the error the spec taxonomy calls
`Conflict`). -/
def duplicateSubmission : ApiError := ⟨400, "Assignment already submitted"⟩

/-- The deadline-guard rejection of the submit route. -/
def deadlinePassed : ApiError := ⟨400, "Assignment submission deadline has passed"⟩

/-- The attachment entry built from a file and its successful upload result. -/
def mkAttachment (f : UFile) (r : UploadResult) : Attachment :=
  { name := f.originalname, url := r.secureUrl, mimetype := f.mimetype }

/-- The upload loop of the submit route: each file is uploaded independently,
a failed upload (oracle returns `none`) is logged and skipped, a successful
one appends an attachment; order is preserved. -/
def uploadAll (files : List UFile) (up : UFile → Option UploadResult) : List Attachment :=
  files.filterMap (fun f => (up f).map (mkAttachment f))

/-- POST `/api/assignments/:id/submit`.  `tGuard` is the clock value at the
deadline guard, `tPersist` the clock value at the status computation just
before the save; `up` gives the per-file outcome of the blob store. -/
def submitAssignment (actor : Actor) (aid : Oid) (content : String)
    (files : List UFile) (up : UFile → Option UploadResult)
    (tGuard tPersist : Time) (db : DB) : Except ApiError Submission × DB :=
  if actor.role = Role.student then
    if strTrim content == "" then
      (.error ⟨400, "Submission content is required"⟩, db)
    else
      match findAssignment db aid with
      | none => (.error assignmentNotFound, db)
      | some a =>
        match findCourse db a.course with
        | none => (.error ⟨500, "Server error submitting assignment"⟩, db)
        | some c =>
          if c.students.contains actor.id then
            match a.submissions.find? (fun s => s.student == actor.id) with
            | some _ => (.error duplicateSubmission, db)
            | none =>
              if a.dueDate < tGuard then
                (.error deadlinePassed, db)
              else
                let db1 := { db with blobWrites := db.blobWrites + files.length }
                let sub : Submission :=
                  ⟨actor.id, strTrim content, uploadAll files up,
                    if a.dueDate < tPersist then .late else .submitted, none, none⟩
                (.ok sub, saveAssignment db1 { a with submissions := a.submissions ++ [sub] })
          else (.error ⟨403, "Not enrolled in this course"⟩, db)
  else (.error accessDenied, db)

/-- The mutation the grade route performs on the found submission. -/
def gradeSub (marks : Int) (feedback : Option String) (s : Submission) : Submission :=
  { s with marks := some marks, feedback := some (feedback.getD ""), status := .graded }

/-- Mutating the object returned by `Array.prototype.find`: exactly the first
element satisfying the predicate is replaced. -/
def updateFirst (p : α → Bool) (f : α → α) : List α → List α
  | [] => []
  | x :: xs => if p x then f x :: xs else x :: updateFirst p f xs

/-- PUT `/api/assignments/:id/grade`. -/
def gradeSubmission (actor : Actor) (aid : Oid) (studentId : Oid) (marks : Int)
    (feedback : Option String) (db : DB) : Except ApiError Submission × DB :=
  if actor.role = Role.instructor then
    match findAssignment db aid with
    | none => (.error assignmentNotFound, db)
    | some a =>
      if a.instructor = actor.id then
        match a.submissions.find? (fun s => s.student == studentId) with
        | none => (.error ⟨404, "Submission not found"⟩, db)
        | some s =>
          let subs := updateFirst (fun s => s.student == studentId)
            (gradeSub marks feedback) a.submissions
          (.ok (gradeSub marks feedback s),
            saveAssignment db { a with submissions := subs })
      else (.error ⟨403, "Not authorized to grade this assignment"⟩, db)
  else (.error accessDenied, db)

/-- GET `/api/assignments/:id/submissions` (read only, returns no new state). -/
def listSubmissions (actor : Actor) (aid : Oid) (db : DB) :
    Except ApiError (List Submission) :=
  if actor.role = Role.instructor then
    match findAssignment db aid with
    | none => .error assignmentNotFound
    | some a =>
      if a.instructor = actor.id then .ok a.submissions
      else .error ⟨403, "Not authorized to view submissions"⟩
  else .error accessDenied

/-- The `.sort(\x7b createdAt: -1 \x7d)` of the assignment listing query. -/
def newestFirst (l : List Assignment) : List Assignment :=
  l.mergeSort (fun x y => decide (y.createdAt ≤ x.createdAt))

/-- GET `/api/assignments/:courseId` (read only, returns no new state). -/
def listAssignments (actor : Actor) (cid : Oid) (db : DB) :
    Except ApiError (List Assignment) :=
  match findCourse db cid with
  | none => .error courseNotFound
  | some c =>
    if c.students.contains actor.id || c.instructor == actor.id then
      .ok (newestFirst (db.assignments.filter (fun a => a.course == cid)))
    else .error ⟨403, "Not authorized to view assignments"⟩

/-- POST `/api/assignments`.  `newId` is the fresh ObjectId Mongo assigns and
`now` the creation timestamp. -/
def createAssignment (actor : Actor) (title description : String) (cid : Oid)
    (dueDate : Time) (maxMarks : Option Int) (newId : Oid) (now : Time)
    (db : DB) : Except ApiError Assignment × DB :=
  if actor.role = Role.instructor then
    if decide (3 ≤ (strTrim title).length) && decide (10 ≤ (strTrim description).length) then
      match findCourse db cid with
      | none => (.error courseNotFound, db)
      | some c =>
        if c.instructor = actor.id then
          let a : Assignment :=
            ⟨newId, strTrim title, strTrim description, cid, actor.id, dueDate,
              maxMarks.getD 100, now, []⟩
          let db1 := { db with assignments := db.assignments ++ [a] }
          (.ok a, saveCourse db1 { c with assignments := c.assignments ++ [newId] })
        else (.error ⟨403, "Not authorized to create assignments for this course"⟩, db)
    else (.error ⟨400, "Validation failed"⟩, db)
  else (.error accessDenied, db)

/-- The fields of `req.body` that the update route passes to
`findByIdAndUpdate`; Mongoose `$set`s every schema path present in the body,
so every assignment schema field can occur. -/
structure AssignmentUpdate where
  title : Option String
  description : Option String
  course : Option Oid
  instructor : Option Oid
  dueDate : Option Time
  maxMarks : Option Int
  deriving DecidableEq, Repr

/-- `findByIdAndUpdate(id, req.body)`: set every field present in the body. -/
def applyUpdate (u : AssignmentUpdate) (a : Assignment) : Assignment :=
  { a with
    title := (u.title.map strTrim).getD a.title
    description := (u.description.map strTrim).getD a.description
    course := u.course.getD a.course
    instructor := u.instructor.getD a.instructor
    dueDate := u.dueDate.getD a.dueDate
    maxMarks := u.maxMarks.getD a.maxMarks }

/-- PUT `/api/assignments/:id`. -/
def updateAssignment (actor : Actor) (aid : Oid) (u : AssignmentUpdate)
    (db : DB) : Except ApiError Assignment × DB :=
  if actor.role = Role.instructor then
    if (u.title.all fun t => decide (3 ≤ (strTrim t).length)) &&
        (u.description.all fun d => decide (10 ≤ (strTrim d).length)) then
      match findAssignment db aid with
      | none => (.error assignmentNotFound, db)
      | some a =>
        if a.instructor = actor.id then
          (.ok (applyUpdate u a), saveAssignment db (applyUpdate u a))
        else (.error ⟨403, "Not authorized to update this assignment"⟩, db)
    else (.error ⟨400, "Validation failed"⟩, db)
  else (.error accessDenied, db)

/-- DELETE `/api/assignments/:id`.  The `$pull` removes the id from the
owning course, then the assignment document is deleted. -/
def deleteAssignment (actor : Actor) (aid : Oid) (db : DB) :
    Except ApiError Unit × DB :=
  if actor.role = Role.instructor then
    match findAssignment db aid with
    | none => (.error assignmentNotFound, db)
    | some a =>
      if a.instructor = actor.id then
        match findCourse db a.course with
        | none => (.error ⟨500, "Server error deleting assignment"⟩, db)
        | some c =>
          let db1 := saveCourse db
            { c with assignments := c.assignments.filter (fun x => x != aid) }
          (.ok (), removeAssignment db1 aid)
      else (.error ⟨403, "Not authorized to delete this assignment"⟩, db)
  else (.error accessDenied, db)

/-- POST `/api/lectures`.  `file` is `req.file` (absent when no video part was
sent); the multer `fileFilter` rejects a non-video file before the handler and
before any blob write; `upRes` is the outcome of the single Cloudinary upload,
whose failure is caught by the outer catch as a 500 with nothing persisted. -/
def uploadLecture (actor : Actor) (file : Option UFile) (title description : String)
    (cid : Oid) (ord : Int) (isPreview : Bool) (notes : String)
    (upRes : Except String UploadResult) (newId : Oid) (db : DB) :
    Except ApiError Lecture × DB :=
  if actor.role = Role.instructor then
    match file with
    | some f =>
      if strStartsWith f.mimetype "video/" then
        if decide (3 ≤ (strTrim title).length) then
          match findCourse db cid with
          | none => (.error courseNotFound, db)
          | some c =>
            if c.instructor = actor.id then
              let db1 := { db with blobWrites := db.blobWrites + 1 }
              match upRes with
              | .error _ => (.error ⟨500, "Server error uploading lecture"⟩, db1)
              | .ok r =>
                let lec : Lecture :=
                  ⟨newId, strTrim title, description, cid, r.secureUrl, r.publicId,
                    r.duration, ord, isPreview, notes, []⟩
                let db2 := { db1 with lectures := db1.lectures ++ [lec] }
                (.ok lec, saveCourse db2 { c with lectures := c.lectures ++ [newId] })
            else (.error ⟨403, "Not authorized to add lectures to this course"⟩, db)
        else (.error ⟨400, "Validation failed"⟩, db)
      else (.error ⟨500, "Only video files are allowed"⟩, db)
    | none =>
      if decide (3 ≤ (strTrim title).length) then
        (.error ⟨400, "Video file is required"⟩, db)
      else (.error ⟨400, "Validation failed"⟩, db)
  else (.error accessDenied, db)



theorem find_replace {α : Type} (q : α → Bool) (l : List α) (a a' : α)
    (h : l.find? q = some a) (ha' : q a' = true) :
    (l.map (fun x => if q x then a' else x)).find? q = some a' := by
  induction l with
  | nil => simp at h
  | cons x xs ih =>
    cases hx : q x with
    | true => simp [List.find?_cons, hx, ha']
    | false =>
      rw [List.find?_cons, hx] at h
      simp [List.find?_cons, hx, ih h]

theorem find_append_none {α : Type} (q : α → Bool) (l1 l2 : List α)
    (h : l1.find? q = none) : (l1 ++ l2).find? q = l2.find? q := by
  induction l1 with
  | nil => simp
  | cons x xs ih =>
    rw [List.find?_cons] at h
    cases hx : q x with
    | true => rw [hx] at h; simp at h
    | false =>
      rw [hx] at h
      simp only [List.cons_append, List.find?_cons, hx]
      exact ih h

theorem find_append_cons {α : Type} (q : α → Bool) (pre post : List α) (b : α)
    (hpre : ∀ x ∈ pre, q x = false) (hb : q b = true) :
    (pre ++ b :: post).find? q = some b := by
  induction pre with
  | nil => simp [List.find?_cons, hb]
  | cons x xs ih =>
    have hx := hpre x (by simp)
    simp only [List.cons_append, List.find?_cons, hx]
    exact ih (fun y hy => hpre y (by simp [hy]))

theorem updateFirst_append_cons {α : Type} (q : α → Bool) (f : α → α)
    (pre post : List α) (b : α)
    (hpre : ∀ x ∈ pre, q x = false) (hb : q b = true) :
    updateFirst q f (pre ++ b :: post) = pre ++ f b :: post := by
  induction pre with
  | nil => simp [updateFirst, hb]
  | cons x xs ih =>
    have hx := hpre x (by simp)
    simp [updateFirst, hx, ih (fun y hy => hpre y (by simp [hy]))]

theorem find_decomp {α : Type} (q : α → Bool) (l : List α) (a : α)
    (h : l.find? q = some a) :
    ∃ pre post, l = pre ++ a :: post ∧ (∀ x ∈ pre, q x = false) ∧ q a = true := by
  induction l with
  | nil => simp at h
  | cons x xs ih =>
    rw [List.find?_cons] at h
    cases hx : q x with
    | true =>
      rw [hx] at h
      obtain rfl : x = a := by injection h
      exact ⟨[], xs, by simp, by simp, hx⟩
    | false =>
      rw [hx] at h
      obtain ⟨pre, post, hl, hpre, ha⟩ := ih h
      refine ⟨x :: pre, post, by simp [hl], ?_, ha⟩
      intro y hy
      rcases List.mem_cons.mp hy with rfl | hy
      · exact hx
      · exact hpre y hy

theorem findAssignment_save (db : DB) (aid : Oid) (a a' : Assignment)
    (h : findAssignment db aid = some a) (hid : a'.id = a.id) :
    findAssignment (saveAssignment db a') aid = some a' := by
  unfold findAssignment at h
  have haid := List.find?_some h
  have haid' : a.id = aid := by simpa using haid
  unfold findAssignment saveAssignment
  simp only [hid, haid']
  exact find_replace (fun x => x.id == aid) db.assignments a a' h (by simp [hid, haid'])

theorem findCourse_save (db : DB) (cid : Oid) (c c' : Course)
    (h : findCourse db cid = some c) (hid : c'.id = c.id) :
    findCourse (saveCourse db c') cid = some c' := by
  unfold findCourse at h
  have haid := List.find?_some h
  have haid' : c.id = cid := by simpa using haid
  unfold findCourse saveCourse
  simp only [hid, haid']
  exact find_replace (fun x => x.id == cid) db.courses c c' h (by simp [hid, haid'])



/-- The submission document the submit route pushes on success. -/
def submitSub (actor : Actor) (content : String) (files : List UFile)
    (up : UFile → Option UploadResult) (a : Assignment) (tPersist : Time) : Submission :=
  ⟨actor.id, strTrim content, uploadAll files up,
    if a.dueDate < tPersist then SubStatus.late else SubStatus.submitted, none, none⟩

/-- Evaluation of the submit route when every guard passes. -/
theorem submit_ok_eq
    (actor : Actor) (aid : Oid) (content : String) (files : List UFile)
    (up : UFile → Option UploadResult) (tGuard tPersist : Time) (db : DB)
    (a : Assignment) (c : Course)
    (hrole : actor.role = Role.student)
    (hcontent : (strTrim content == "") = false)
    (hfind : findAssignment db aid = some a)
    (hcourse : findCourse db a.course = some c)
    (henr : actor.id ∈ c.students)
    (hnodup : a.submissions.find? (fun s => s.student == actor.id) = none)
    (hT : ¬ a.dueDate < tGuard) :
    submitAssignment actor aid content files up tGuard tPersist db =
      (.ok (submitSub actor content files up a tPersist),
        saveAssignment { db with blobWrites := db.blobWrites + files.length }
          { a with submissions :=
              a.submissions ++ [submitSub actor content files up a tPersist] }) := by
  simp [submitAssignment, submitSub, hrole, hcontent, hfind, hcourse, henr, hnodup, hT]

/-- The state after a successful submit still holds the course, and holds the
assignment with the new submission appended. -/
theorem submit_post_facts
    (actor : Actor) (aid : Oid) (content : String) (files : List UFile)
    (up : UFile → Option UploadResult) (tGuard tPersist : Time) (db : DB)
    (a : Assignment) (c : Course)
    (hrole : actor.role = Role.student)
    (hcontent : (strTrim content == "") = false)
    (hfind : findAssignment db aid = some a)
    (hcourse : findCourse db a.course = some c)
    (henr : actor.id ∈ c.students)
    (hnodup : a.submissions.find? (fun s => s.student == actor.id) = none)
    (hT : ¬ a.dueDate < tGuard) :
    findAssignment (submitAssignment actor aid content files up tGuard tPersist db).2 aid =
      some { a with submissions :=
              a.submissions ++ [submitSub actor content files up a tPersist] }
    ∧ ∀ z, findCourse (submitAssignment actor aid content files up tGuard tPersist db).2 z =
        findCourse db z := by
  rw [submit_ok_eq actor aid content files up tGuard tPersist db a c
    hrole hcontent hfind hcourse henr hnodup hT]
  constructor
  · exact findAssignment_save _ aid a _ hfind rfl
  · intro z
    rfl



/-- Claim C1: at the submit route, if the clock at the initial write-guard is
past the due date the call is rejected with the deadline error and the state
is unchanged; otherwise a submission is appended whose status is computed
from the clock at persistence time: late if past due then, submitted
otherwise. -/
theorem submit_deadline_guard_and_status
    (actor : Actor) (aid : Oid) (content : String) (files : List UFile)
    (up : UFile → Option UploadResult) (tGuard tPersist : Time) (db : DB)
    (a : Assignment) (c : Course)
    (hrole : actor.role = Role.student)
    (hcontent : (strTrim content == "") = false)
    (hfind : findAssignment db aid = some a)
    (hcourse : findCourse db a.course = some c)
    (henr : actor.id ∈ c.students)
    (hnodup : a.submissions.find? (fun s => s.student == actor.id) = none) :
    (a.dueDate < tGuard →
      submitAssignment actor aid content files up tGuard tPersist db =
        (.error deadlinePassed, db))
    ∧ (¬ a.dueDate < tGuard →
      ∃ sub : Submission,
        (submitAssignment actor aid content files up tGuard tPersist db).1 = .ok sub
        ∧ sub.status = (if a.dueDate < tPersist then SubStatus.late else SubStatus.submitted)
        ∧ (findAssignment (submitAssignment actor aid content files up tGuard tPersist db).2 aid).map
            (fun x => x.submissions) = some (a.submissions ++ [sub])) := by
  constructor
  · intro h
    simp [submitAssignment, hrole, hcontent, hfind, hcourse, henr, hnodup, h]
  · intro h
    obtain ⟨hA, hC⟩ := submit_post_facts actor aid content files up tGuard tPersist db a c
      hrole hcontent hfind hcourse henr hnodup h
    refine ⟨submitSub actor content files up a tPersist, ?_, rfl, ?_⟩
    · rw [submit_ok_eq actor aid content files up tGuard tPersist db a c
        hrole hcontent hfind hcourse henr hnodup h]
    · rw [hA]
      rfl

/-- Claim C2: once a student has submitted successfully, a second well-formed
submit call by the same student on the same assignment fails with the
duplicate-submission error (the spec taxonomy calls it Conflict) and leaves
the state unchanged. -/
theorem submit_duplicate_rejected
    (actor : Actor) (aid : Oid) (content : String) (files : List UFile)
    (up : UFile → Option UploadResult) (tGuard tPersist : Time) (db : DB)
    (a : Assignment) (c : Course)
    (content2 : String) (files2 : List UFile) (up2 : UFile → Option UploadResult)
    (tG2 tP2 : Time)
    (hrole : actor.role = Role.student)
    (hcontent : (strTrim content == "") = false)
    (hfind : findAssignment db aid = some a)
    (hcourse : findCourse db a.course = some c)
    (henr : actor.id ∈ c.students)
    (hnodup : a.submissions.find? (fun s => s.student == actor.id) = none)
    (hT : ¬ a.dueDate < tGuard)
    (hcontent2 : (strTrim content2 == "") = false) :
    ∃ sub db2,
      submitAssignment actor aid content files up tGuard tPersist db = (.ok sub, db2)
      ∧ submitAssignment actor aid content2 files2 up2 tG2 tP2 db2 =
          (.error duplicateSubmission, db2) := by
  obtain ⟨hA, hC⟩ := submit_post_facts actor aid content files up tGuard tPersist db a c
    hrole hcontent hfind hcourse henr hnodup hT
  refine ⟨submitSub actor content files up a tPersist,
    (submitAssignment actor aid content files up tGuard tPersist db).2, ?_, ?_⟩
  · rw [submit_ok_eq actor aid content files up tGuard tPersist db a c
      hrole hcontent hfind hcourse henr hnodup hT]
  · have hdup : (a.submissions ++ [submitSub actor content files up a tPersist]).find?
        (fun s => s.student == actor.id) = some (submitSub actor content files up a tPersist) := by
      rw [find_append_none _ _ _ hnodup]
      simp [List.find?_cons, submitSub]
    have hcourse2 : findCourse (submitAssignment actor aid content files up tGuard tPersist db).2
        a.course = some c := by rw [hC]; exact hcourse
    generalize hg : (submitAssignment actor aid content files up tGuard tPersist db).2 = st2
      at hA hcourse2 ⊢
    simp [submitAssignment, hrole, hcontent2, hA, hcourse2, henr, hdup]

/-- Claim C7: per-file blob store failures never fail a well-formed submit;
the appended submission carries exactly the attachments of the files whose
uploads succeeded, in file order. -/
theorem submit_absorbs_upload_failures
    (actor : Actor) (aid : Oid) (content : String) (files : List UFile)
    (up : UFile → Option UploadResult) (tGuard tPersist : Time) (db : DB)
    (a : Assignment) (c : Course)
    (hrole : actor.role = Role.student)
    (hcontent : (strTrim content == "") = false)
    (hfind : findAssignment db aid = some a)
    (hcourse : findCourse db a.course = some c)
    (henr : actor.id ∈ c.students)
    (hnodup : a.submissions.find? (fun s => s.student == actor.id) = none)
    (hT : ¬ a.dueDate < tGuard) :
    ∃ sub : Submission,
      (submitAssignment actor aid content files up tGuard tPersist db).1 = .ok sub
      ∧ sub.attachments = files.filterMap (fun f => (up f).map (mkAttachment f))
      ∧ (findAssignment (submitAssignment actor aid content files up tGuard tPersist db).2 aid).map
          (fun x => x.submissions) = some (a.submissions ++ [sub]) := by
  obtain ⟨hA, hC⟩ := submit_post_facts actor aid content files up tGuard tPersist db a c
    hrole hcontent hfind hcourse henr hnodup hT
  refine ⟨submitSub actor content files up a tPersist, ?_, rfl, ?_⟩
  · rw [submit_ok_eq actor aid content files up tGuard tPersist db a c
      hrole hcontent hfind hcourse henr hnodup hT]
  · rw [hA]
    rfl

/-- A sample course: instructor 7, enrolled students 5 and 6. -/
def cW : Course := ⟨1, 7, [5, 6], [2], [], true⟩

/-- A sample assignment on course 1 with due date 100 and no submissions. -/
def aW : Assignment := ⟨2, "HW one", "a description!", 1, 7, 100, 100, 50, []⟩

/-- A sample database holding the sample course and assignment. -/
def dbW : DB := ⟨[cW], [aW], [], 0⟩

theorem submit_deadline_guard_and_status_witness :
    submitAssignment ⟨5, Role.student⟩ 2 "ans" [] (fun _ => none) 101 102 dbW =
      (.error deadlinePassed, dbW) :=
  (submit_deadline_guard_and_status ⟨5, Role.student⟩ 2 "ans" [] (fun _ => none) 101 102 dbW
    aW cW rfl (by decide) (by decide) (by decide) (by decide) rfl).1 (by decide)

theorem submit_duplicate_rejected_witness :
    ∃ sub db2,
      submitAssignment ⟨5, Role.student⟩ 2 "ans" [] (fun _ => none) 99 99 dbW = (.ok sub, db2)
      ∧ submitAssignment ⟨5, Role.student⟩ 2 "again" [] (fun _ => none) 99 99 db2 =
          (.error duplicateSubmission, db2) :=
  submit_duplicate_rejected ⟨5, Role.student⟩ 2 "ans" [] (fun _ => none) 99 99 dbW
    aW cW "again" [] (fun _ => none) 99 99 rfl (by decide) (by decide) (by decide)
    (by decide) rfl (by decide) (by decide)

theorem submit_absorbs_upload_failures_witness :
    ∃ sub : Submission,
      (submitAssignment ⟨5, Role.student⟩ 2 "ans"
        [⟨"good.txt", "text/plain"⟩, ⟨"bad.txt", "text/plain"⟩]
        (fun f => if f.originalname == "good.txt" then some ⟨"u", "p", 0⟩ else none)
        99 99 dbW).1 = .ok sub
      ∧ sub.attachments =
          [⟨"good.txt", "text/plain"⟩, ⟨"bad.txt", "text/plain"⟩].filterMap
            (fun f => ((fun f => if f.originalname == "good.txt" then some ⟨"u", "p", 0⟩ else none) f).map
              (mkAttachment f))
      ∧ (findAssignment (submitAssignment ⟨5, Role.student⟩ 2 "ans"
            [⟨"good.txt", "text/plain"⟩, ⟨"bad.txt", "text/plain"⟩]
            (fun f => if f.originalname == "good.txt" then some ⟨"u", "p", 0⟩ else none)
            99 99 dbW).2 2).map (fun x => x.submissions) =
          some (aW.submissions ++ [sub]) :=
  submit_absorbs_upload_failures ⟨5, Role.student⟩ 2 "ans"
    [⟨"good.txt", "text/plain"⟩, ⟨"bad.txt", "text/plain"⟩]
    (fun f => if f.originalname == "good.txt" then some ⟨"u", "p", 0⟩ else none)
    99 99 dbW aW cW rfl (by decide) (by decide) (by decide) (by decide) rfl (by decide)



/-- Evaluation of the grade route when every guard passes. -/
theorem grade_ok_eq (actor : Actor) (aid sid : Oid) (marks : Int)
    (fb : Option String) (db : DB) (a : Assignment) (s0 : Submission)
    (hrole : actor.role = Role.instructor)
    (hfind : findAssignment db aid = some a)
    (hown : a.instructor = actor.id)
    (hsub : a.submissions.find? (fun s => s.student == sid) = some s0) :
    gradeSubmission actor aid sid marks fb db =
      (.ok (gradeSub marks fb s0),
        saveAssignment db { a with submissions := updateFirst (fun s => s.student == sid) (gradeSub marks fb) a.submissions }) := by
  simp [gradeSubmission, hrole, hfind, hown, hsub]

/-- Claim C3: grading the same submission twice ends at the second marks and
feedback with status graded. -/
theorem grade_idempotent (actor : Actor) (aid sid : Oid) (m1 m2 : Int)
    (fb1 fb2 : Option String) (db : DB) (a : Assignment) (s0 : Submission)
    (hrole : actor.role = Role.instructor)
    (hfind : findAssignment db aid = some a)
    (hown : a.instructor = actor.id)
    (hsub : a.submissions.find? (fun s => s.student == sid) = some s0) :
    ∃ db1,
      gradeSubmission actor aid sid m1 fb1 db = (.ok (gradeSub m1 fb1 s0), db1)
      ∧ ∃ s2 db2, gradeSubmission actor aid sid m2 fb2 db1 = (.ok s2, db2)
        ∧ s2 = gradeSub m2 fb2 s0
        ∧ (∃ a2, findAssignment db2 aid = some a2
            ∧ a2.submissions.find? (fun s => s.student == sid) = some s2)
        ∧ s2.marks = some m2 ∧ s2.feedback = some (fb2.getD "")
        ∧ s2.status = SubStatus.graded := by
  obtain ⟨pre, post, hl, hpre, hq⟩ := find_decomp _ _ _ hsub
  have hup1 : updateFirst (fun s => s.student == sid) (gradeSub m1 fb1) a.submissions =
      pre ++ gradeSub m1 fb1 s0 :: post := by
    rw [hl]; exact updateFirst_append_cons _ _ _ _ _ hpre hq
  have h1 := grade_ok_eq actor aid sid m1 fb1 db a s0 hrole hfind hown hsub
  refine ⟨_, h1, ?_⟩
  have hfind1 : findAssignment (saveAssignment db { a with submissions := updateFirst (fun s => s.student == sid) (gradeSub m1 fb1) a.submissions }) aid = some { a with submissions := updateFirst (fun s => s.student == sid) (gradeSub m1 fb1) a.submissions } :=
    findAssignment_save _ _ a _ hfind rfl
  have hq1 : ((gradeSub m1 fb1 s0).student == sid) = true := by
    simpa [gradeSub] using hq
  have hsub1 : ({ a with submissions := updateFirst (fun s => s.student == sid) (gradeSub m1 fb1) a.submissions } : Assignment).submissions.find? (fun s => s.student == sid) = some (gradeSub m1 fb1 s0) := by
    show (updateFirst (fun s => s.student == sid) (gradeSub m1 fb1) a.submissions).find? _ = _
    rw [hup1]
    exact find_append_cons _ _ _ _ hpre hq1
  have h2 := grade_ok_eq actor aid sid m2 fb2 _ _ (gradeSub m1 fb1 s0) hrole hfind1 hown hsub1
  refine ⟨gradeSub m2 fb2 (gradeSub m1 fb1 s0), _, h2, rfl, ?_, rfl, rfl, rfl⟩
  have hup2 : updateFirst (fun s => s.student == sid) (gradeSub m2 fb2) (updateFirst (fun s => s.student == sid) (gradeSub m1 fb1) a.submissions) = pre ++ gradeSub m2 fb2 (gradeSub m1 fb1 s0) :: post := by
    rw [hup1]
    exact updateFirst_append_cons _ _ _ _ _ hpre hq1
  refine ⟨_, findAssignment_save _ _ _ _ hfind1 rfl, ?_⟩
  show (updateFirst (fun s => s.student == sid) (gradeSub m2 fb2) _).find? _ = _
  rw [hup2]
  exact find_append_cons _ _ _ _ hpre (by simpa [gradeSub] using hq)



/-- Claim C10: a successful grade changes only the marks, feedback and status
of the first submission of the targeted student; every other submission and
every other assignment field is unchanged. -/
theorem grade_frame (actor : Actor) (aid sid : Oid) (m : Int)
    (fb : Option String) (db : DB) (a : Assignment) (s0 : Submission)
    (hrole : actor.role = Role.instructor)
    (hfind : findAssignment db aid = some a)
    (hown : a.instructor = actor.id)
    (hsub : a.submissions.find? (fun s => s.student == sid) = some s0) :
    ∃ pre post a2,
      a.submissions = pre ++ s0 :: post
      ∧ (∀ x ∈ pre, (x.student == sid) = false)
      ∧ (gradeSubmission actor aid sid m fb db).1 = .ok (gradeSub m fb s0)
      ∧ findAssignment (gradeSubmission actor aid sid m fb db).2 aid = some a2
      ∧ a2.submissions = pre ++ gradeSub m fb s0 :: post
      ∧ a2.title = a.title ∧ a2.description = a.description ∧ a2.course = a.course
      ∧ a2.instructor = a.instructor ∧ a2.dueDate = a.dueDate ∧ a2.maxMarks = a.maxMarks
      ∧ (gradeSub m fb s0).student = s0.student
      ∧ (gradeSub m fb s0).content = s0.content
      ∧ (gradeSub m fb s0).attachments = s0.attachments := by
  obtain ⟨pre, post, hl, hpre, hq⟩ := find_decomp _ _ _ hsub
  have hup : updateFirst (fun s => s.student == sid) (gradeSub m fb) a.submissions = pre ++ gradeSub m fb s0 :: post := by
    rw [hl]; exact updateFirst_append_cons _ _ _ _ _ hpre hq
  have h1 := grade_ok_eq actor aid sid m fb db a s0 hrole hfind hown hsub
  refine ⟨pre, post, { a with submissions := updateFirst (fun s => s.student == sid) (gradeSub m fb) a.submissions }, hl, hpre, by rw [h1], ?_, hup, rfl, rfl, rfl, rfl, rfl, rfl, rfl, rfl, rfl⟩
  rw [h1]
  exact findAssignment_save _ _ a _ hfind rfl

/-- Claim C4: on an existing assignment, an actor who is not the stored
assignment instructor gets a 403 from both the grade route and the
submissions listing with the state unchanged, and the owning instructor
grading a student without a submission gets the 404 submission error with the
state unchanged. -/
theorem grade_and_list_authorization (actor : Actor) (aid sid : Oid) (m : Int)
    (fb : Option String) (db : DB) (a : Assignment)
    (hfind : findAssignment db aid = some a) :
    (a.instructor ≠ actor.id →
      (∃ e, gradeSubmission actor aid sid m fb db = (.error e, db) ∧ e.status = 403)
      ∧ (∃ e, listSubmissions actor aid db = .error e ∧ e.status = 403))
    ∧ (actor.role = Role.instructor → a.instructor = actor.id →
        a.submissions.find? (fun s => s.student == sid) = none →
        gradeSubmission actor aid sid m fb db = (.error ⟨404, "Submission not found"⟩, db)) := by
  constructor
  · intro hne
    by_cases hr : actor.role = Role.instructor
    · constructor
      · exact ⟨⟨403, "Not authorized to grade this assignment"⟩,
          by simp [gradeSubmission, hr, hfind, hne], rfl⟩
      · exact ⟨⟨403, "Not authorized to view submissions"⟩,
          by simp [listSubmissions, hr, hfind, hne], rfl⟩
    · constructor
      · exact ⟨accessDenied, by simp [gradeSubmission, hr], rfl⟩
      · exact ⟨accessDenied, by simp [listSubmissions, hr], rfl⟩
  · intro hr hown hnone
    simp [gradeSubmission, hr, hfind, hown, hnone]

/-- A sample graded-route submission by student 5. -/
def sW : Submission := ⟨5, "ans", [], .submitted, none, none⟩

/-- A sample assignment on course 1 already holding the submission of
student 5. -/
def aG : Assignment := ⟨3, "HW two", "a description!", 1, 7, 100, 100, 60, [sW]⟩

/-- A sample database for the grading claims. -/
def dbG : DB := ⟨[cW], [aG], [], 0⟩

theorem grade_idempotent_witness :
    ∃ db1,
      gradeSubmission ⟨7, Role.instructor⟩ 3 5 80 (some "ok") dbG =
        (.ok (gradeSub 80 (some "ok") sW), db1)
      ∧ ∃ s2 db2, gradeSubmission ⟨7, Role.instructor⟩ 3 5 95 none db1 = (.ok s2, db2)
        ∧ s2 = gradeSub 95 none sW
        ∧ (∃ a2, findAssignment db2 3 = some a2
            ∧ a2.submissions.find? (fun s => s.student == 5) = some s2)
        ∧ s2.marks = some 95 ∧ s2.feedback = some (Option.getD none "")
        ∧ s2.status = SubStatus.graded :=
  grade_idempotent ⟨7, Role.instructor⟩ 3 5 80 95 (some "ok") none dbG aG sW
    rfl (by decide) rfl (by decide)

theorem grade_frame_witness :
    ∃ pre post a2,
      aG.submissions = pre ++ sW :: post
      ∧ (∀ x ∈ pre, (x.student == 5) = false)
      ∧ (gradeSubmission ⟨7, Role.instructor⟩ 3 5 80 (some "ok") dbG).1 =
          .ok (gradeSub 80 (some "ok") sW)
      ∧ findAssignment (gradeSubmission ⟨7, Role.instructor⟩ 3 5 80 (some "ok") dbG).2 3 =
          some a2
      ∧ a2.submissions = pre ++ gradeSub 80 (some "ok") sW :: post
      ∧ a2.title = aG.title ∧ a2.description = aG.description ∧ a2.course = aG.course
      ∧ a2.instructor = aG.instructor ∧ a2.dueDate = aG.dueDate ∧ a2.maxMarks = aG.maxMarks
      ∧ (gradeSub 80 (some "ok") sW).student = sW.student
      ∧ (gradeSub 80 (some "ok") sW).content = sW.content
      ∧ (gradeSub 80 (some "ok") sW).attachments = sW.attachments :=
  grade_frame ⟨7, Role.instructor⟩ 3 5 80 (some "ok") dbG aG sW
    rfl (by decide) rfl (by decide)

theorem grade_and_list_authorization_witness :
    ((∃ e, gradeSubmission ⟨9, Role.instructor⟩ 3 5 80 none dbG = (.error e, dbG) ∧ e.status = 403)
      ∧ (∃ e, listSubmissions ⟨9, Role.instructor⟩ 3 dbG = .error e ∧ e.status = 403))
    ∧ gradeSubmission ⟨7, Role.instructor⟩ 3 6 80 none dbG =
        (.error ⟨404, "Submission not found"⟩, dbG) :=
  ⟨(grade_and_list_authorization ⟨9, Role.instructor⟩ 3 5 80 none dbG aG (by decide)).1
      (by decide),
    (grade_and_list_authorization ⟨7, Role.instructor⟩ 3 6 80 none dbG aG (by decide)).2
      rfl rfl (by decide)⟩



/-- The comparator of the newest-first sort. -/
def olderLe (x y : Assignment) : Bool := decide (y.createdAt ≤ x.createdAt)

theorem olderLe_trans : ∀ (x y z : Assignment), olderLe x y → olderLe y z → olderLe x z := by
  intro x y z h1 h2
  simp only [olderLe, decide_eq_true_eq] at *
  exact Nat.le_trans h2 h1

theorem olderLe_total : ∀ (x y : Assignment), olderLe x y || olderLe y x := by
  intro x y
  simp only [olderLe, Bool.or_eq_true, decide_eq_true_eq]
  exact Nat.le_total y.createdAt x.createdAt

/-- The listing order is a permutation of the queried assignments. -/
theorem newestFirst_perm (l : List Assignment) : (newestFirst l).Perm l :=
  List.mergeSort_perm l _

/-- The listing order is sorted by creation time, newest first. -/
theorem newestFirst_sorted (l : List Assignment) :
    (newestFirst l).Pairwise (fun x y => y.createdAt ≤ x.createdAt) := by
  have heq : newestFirst l = l.mergeSort olderLe := rfl
  rw [heq]
  have h := List.sorted_mergeSort olderLe_trans olderLe_total l
  exact h.imp (fun hxy => by simpa [olderLe] using hxy)

/-- Claim C9: listing assignments of an existing course is denied with a 403
for an actor who is neither enrolled nor the instructor, and otherwise
returns exactly the assignments of the course, newest first. -/
theorem listAssignments_authorization_and_order (actor : Actor) (cid : Oid)
    (db : DB) (c : Course)
    (hcourse : findCourse db cid = some c) :
    (¬(actor.id ∈ c.students ∨ c.instructor = actor.id) →
      listAssignments actor cid db = .error ⟨403, "Not authorized to view assignments"⟩)
    ∧ ((actor.id ∈ c.students ∨ c.instructor = actor.id) →
      ∃ l, listAssignments actor cid db = .ok l
        ∧ l.Perm (db.assignments.filter (fun x => x.course == cid))
        ∧ l.Pairwise (fun x y => y.createdAt ≤ x.createdAt)) := by
  constructor
  · intro h
    push_neg at h
    simp [listAssignments, hcourse, h.1, h.2]
  · intro h
    refine ⟨newestFirst (db.assignments.filter (fun x => x.course == cid)), ?_, ?_, ?_⟩
    · rcases h with h | h <;> simp [listAssignments, hcourse, h]
    · exact newestFirst_perm _
    · exact newestFirst_sorted _

/-- Claim C6: deleting an assignment succeeds for its instructor, removes its
id from the owning course, and no later listing of that course returns an
assignment with the deleted id. -/
theorem deleteAssignment_removes_reference (actor : Actor) (aid : Oid) (db : DB)
    (a : Assignment) (c : Course)
    (hrole : actor.role = Role.instructor)
    (hfind : findAssignment db aid = some a)
    (hown : a.instructor = actor.id)
    (hcourse : findCourse db a.course = some c) :
    (deleteAssignment actor aid db).1 = .ok ()
    ∧ (∃ c', findCourse (deleteAssignment actor aid db).2 a.course = some c'
        ∧ aid ∉ c'.assignments)
    ∧ (∀ actor2 l, listAssignments actor2 a.course (deleteAssignment actor aid db).2 = .ok l →
        ∀ x ∈ l, x.id ≠ aid) := by
  have hstep : deleteAssignment actor aid db =
      (.ok (), removeAssignment (saveCourse db { c with assignments := c.assignments.filter (fun x => x != aid) }) aid) := by
    simp [deleteAssignment, hrole, hfind, hown, hcourse]
  have hc2 : findCourse (deleteAssignment actor aid db).2 a.course =
      some { c with assignments := c.assignments.filter (fun x => x != aid) } := by
    rw [hstep]
    exact findCourse_save db a.course c _ hcourse rfl
  refine ⟨by rw [hstep], ⟨_, hc2, ?_⟩, ?_⟩
  · intro hmem
    have := (List.mem_filter.mp hmem).2
    simp at this
  · intro actor2 l hok x hx
    simp only [listAssignments, hc2] at hok
    split at hok
    · have hl : l = newestFirst ((deleteAssignment actor aid db).2.assignments.filter
          (fun y => y.course == a.course)) := by
        injection hok with h
        exact h.symm
      subst hl
      have hx2 := List.mem_mergeSort.mp hx
      have hx3 := (List.mem_filter.mp hx2).1
      rw [hstep] at hx3
      simp only [removeAssignment, saveCourse] at hx3
      have hx4 := (List.mem_filter.mp hx3).2
      simpa using hx4
    · simp at hok



theorem listAssignments_authorization_and_order_witness :
    ∃ l, listAssignments ⟨5, Role.student⟩ 1 dbW = .ok l
      ∧ l.Perm (dbW.assignments.filter (fun x => x.course == 1))
      ∧ l.Pairwise (fun x y => y.createdAt ≤ x.createdAt) :=
  (listAssignments_authorization_and_order ⟨5, Role.student⟩ 1 dbW cW (by decide)).2
    (Or.inl (by decide))

theorem deleteAssignment_removes_reference_witness :
    (deleteAssignment ⟨7, Role.instructor⟩ 2 dbW).1 = .ok ()
    ∧ (∃ c', findCourse (deleteAssignment ⟨7, Role.instructor⟩ 2 dbW).2 aW.course = some c'
        ∧ 2 ∉ c'.assignments)
    ∧ (∀ actor2 l, listAssignments actor2 aW.course (deleteAssignment ⟨7, Role.instructor⟩ 2 dbW).2 = .ok l →
        ∀ x ∈ l, x.id ≠ 2) :=
  deleteAssignment_removes_reference ⟨7, Role.instructor⟩ 2 dbW aW cW
    rfl (by decide) rfl (by decide)

/-- Claim C8: at the lecture upload route, a non-video file is rejected by the
multer filter with nothing changed (in particular no blob store write); a
missing video file is rejected with nothing changed; and a failed blob store
upload aborts the operation with no lecture persisted and no course
back-reference added (only the attempted blob write is visible). -/
theorem uploadLecture_guards (actor : Actor) (title description : String)
    (cid : Oid) (ord : Int) (prev : Bool) (notes : String)
    (upRes : Except String UploadResult) (newId : Oid) (db : DB)
    (hrole : actor.role = Role.instructor) :
    (∀ f : UFile, strStartsWith f.mimetype "video/" = false →
      uploadLecture actor (some f) title description cid ord prev notes upRes newId db =
        (.error ⟨500, "Only video files are allowed"⟩, db))
    ∧ (3 ≤ (strTrim title).length →
      uploadLecture actor none title description cid ord prev notes upRes newId db =
        (.error ⟨400, "Video file is required"⟩, db))
    ∧ (∀ (f : UFile) (c : Course) (e : String),
        strStartsWith f.mimetype "video/" = true →
        3 ≤ (strTrim title).length →
        findCourse db cid = some c →
        c.instructor = actor.id →
        upRes = .error e →
        uploadLecture actor (some f) title description cid ord prev notes upRes newId db =
          (.error ⟨500, "Server error uploading lecture"⟩,
            { db with blobWrites := db.blobWrites + 1 })) := by
  refine ⟨?_, ?_, ?_⟩
  · intro f hf
    simp [uploadLecture, hrole, hf]
  · intro ht
    simp [uploadLecture, hrole, ht]
  · intro f c e hf ht hc hi he
    simp [uploadLecture, hrole, hf, ht, hc, hi, he]

theorem uploadLecture_guards_witness :
    (uploadLecture ⟨7, Role.instructor⟩ (some ⟨"slides.pdf", "application/pdf"⟩) "Intro lecture"
        "" 1 0 false "" (.ok ⟨"u", "p", 9⟩) 4 dbW =
      (.error ⟨500, "Only video files are allowed"⟩, dbW))
    ∧ (uploadLecture ⟨7, Role.instructor⟩ none "Intro lecture" "" 1 0 false ""
        (.ok ⟨"u", "p", 9⟩) 4 dbW = (.error ⟨400, "Video file is required"⟩, dbW))
    ∧ (uploadLecture ⟨7, Role.instructor⟩ (some ⟨"clip.mp4", "video/mp4"⟩) "Intro lecture"
        "" 1 0 false "" (.error "net down") 4 dbW =
      (.error ⟨500, "Server error uploading lecture"⟩,
        { dbW with blobWrites := dbW.blobWrites + 1 })) :=
  ⟨(uploadLecture_guards ⟨7, Role.instructor⟩ "Intro lecture" "" 1 0 false ""
      (.ok ⟨"u", "p", 9⟩) 4 dbW rfl).1 ⟨"slides.pdf", "application/pdf"⟩ (by decide),
    (uploadLecture_guards ⟨7, Role.instructor⟩ "Intro lecture" "" 1 0 false ""
      (.ok ⟨"u", "p", 9⟩) 4 dbW rfl).2.1 (by decide),
    (uploadLecture_guards ⟨7, Role.instructor⟩ "Intro lecture" "" 1 0 false ""
      (.error "net down") 4 dbW rfl).2.2 ⟨"clip.mp4", "video/mp4"⟩ cW "net down"
      (by decide) (by decide) (by decide) rfl rfl⟩

/-- Claim C5 (refuted on the code): the update route passes the whole request
body to `findByIdAndUpdate`, so a body containing an `instructor` field
overwrites the denormalized instructor snapshot: here the stored instructor 7
becomes 99 after an update request. -/
theorem updateAssignment_can_change_instructor :
    (findAssignment dbW 2).map (fun a => a.instructor) = some 7
    ∧ (findAssignment (updateAssignment ⟨7, Role.instructor⟩ 2
        ⟨none, none, none, some 99, none, none⟩ dbW).2 2).map (fun a => a.instructor) = some 99
    ∧ (updateAssignment ⟨7, Role.instructor⟩ 2
        ⟨none, none, none, some 99, none, none⟩ dbW).1.map (fun a => a.instructor) = .ok 99 := by
  refine ⟨by decide, by decide, by decide⟩

end EduNexus
